import Mathlib

/-!
Verification development for a table-driven LR shift-reduce parser written in C
(`automaton.c`, `parser.c`, `stack.c`, `token.c`).  The definitions below are a
shallow embedding of that C code: C `int` values become `Int` (all the table
data is small and never overflows 32 bits), the bit-packed action encoding
becomes `Nat` bitwise operations on the same hexadecimal constants, the linked
parser stack becomes a `List` whose head is the stack top, and the main loop of
`parser_parse` becomes a fuel-indexed recursion that additionally returns the
per-iteration debug trace and the list of shifted tokens (mirroring what
`write_debug_output` records and what `perform_shift` pushes).
-/

namespace P3

/-! ### Token model (token.h / token.c) -/

/-- Numeric values of the C `TokenType` enum (token.h). -/
def TOKEN_NUM : Int := 0

/-- `TOKEN_PLUS` from the C `TokenType` enum. -/
def TOKEN_PLUS : Int := 1

/-- `TOKEN_STAR` from the C `TokenType` enum. -/
def TOKEN_STAR : Int := 2

/-- `TOKEN_LPAREN` from the C `TokenType` enum. -/
def TOKEN_LPAREN : Int := 3

/-- `TOKEN_RPAREN` from the C `TokenType` enum. -/
def TOKEN_RPAREN : Int := 4

/-- `TOKEN_EOF` from the C `TokenType` enum. -/
def TOKEN_EOF : Int := 5

/-- `TOKEN_INVALID` from the C `TokenType` enum. -/
def TOKEN_INVALID : Int := 6

/-- A lexical token (struct `Token` in token.h); the intrusive `next` pointer is
represented by the position of the token in a `List`. -/
structure Token where
  type : Int
  lexeme : String
  line_number : Int
  position : Int
  deriving Repr, DecidableEq

/-- `token_create` from token.c: builds a token from its four fields. -/
def token_create (type : Int) (lexeme : String) (line : Int) (position : Int) : Token :=
  { type := type, lexeme := lexeme, line_number := line, position := position }

/-! ### Symbol and size constants (automaton.c) -/

/-- `NON_TERMINAL_S` from automaton.c. -/
def NON_TERMINAL_S : Int := 0

/-- `NON_TERMINAL_E` from automaton.c. -/
def NON_TERMINAL_E : Int := 1

/-- `NON_TERMINAL_T` from automaton.c. -/
def NON_TERMINAL_T : Int := 2

/-- `NON_TERMINAL_F` from automaton.c. -/
def NON_TERMINAL_F : Int := 3

/-- `NUM_TERMINALS` from automaton.c (`tables->num_terminals`). -/
def NUM_TERMINALS : Int := 6

/-- `NUM_NON_TERMINALS` from automaton.c (`tables->num_non_terminals`). -/
def NUM_NON_TERMINALS : Int := 4

/-- `NUM_STATES` from automaton.c (`tables->num_states`): the number of
action-table and goto-table rows allocated by `automaton_init`.  The macro is
defined as 11 with the comment "States 0-10". -/
def NUM_STATES : Int := 11

/-- `NUM_PRODUCTIONS` from automaton.c. -/
def NUM_PRODUCTIONS : Int := 7

/-! ### Bit-packed action encoding (automaton.c) -/

/-- `ACTION_SHIFT_BIT` from automaton.c. -/
def ACTION_SHIFT_BIT : Nat := 0x10000

/-- `ACTION_REDUCE_BIT` from automaton.c. -/
def ACTION_REDUCE_BIT : Nat := 0x20000

/-- `ACTION_ACCEPT_BIT` from automaton.c. -/
def ACTION_ACCEPT_BIT : Nat := 0x30000

/-- `ACTION_ERROR_BIT` from automaton.c. -/
def ACTION_ERROR_BIT : Nat := 0x40000

/-- `ACTION_MASK` from automaton.c. -/
def ACTION_MASK : Nat := 0xF0000

/-- `VALUE_MASK` from automaton.c. -/
def VALUE_MASK : Nat := 0x0FFFF

/-- The C `ActionType` enum (automaton.h). -/
inductive ActionType where
  | SHIFT
  | REDUCE
  | ACCEPT
  | ERROR
  deriving Repr, DecidableEq

/-- `automaton_create_action` from automaton.c: packs an action type tag and a
16-bit value into one integer.  Every value the program ever passes is a small
non-negative state or production number, so the `int` argument is embedded as
`Nat`. -/
def automaton_create_action : ActionType → Nat → Nat
  | ActionType.SHIFT, value => ACTION_SHIFT_BIT ||| (value &&& VALUE_MASK)
  | ActionType.REDUCE, value => ACTION_REDUCE_BIT ||| (value &&& VALUE_MASK)
  | ActionType.ACCEPT, _ => ACTION_ACCEPT_BIT
  | ActionType.ERROR, _ => ACTION_ERROR_BIT

/-- `automaton_get_action_type` from automaton.c: decodes the tag bits; every
unknown tag decodes to `ERROR` (the C `default` branch). -/
def automaton_get_action_type (action : Nat) : ActionType :=
  let type_bits := action &&& ACTION_MASK
  if type_bits = ACTION_SHIFT_BIT then ActionType.SHIFT
  else if type_bits = ACTION_REDUCE_BIT then ActionType.REDUCE
  else if type_bits = ACTION_ACCEPT_BIT then ActionType.ACCEPT
  else ActionType.ERROR

/-- `automaton_get_action_value` from automaton.c. -/
def automaton_get_action_value (action : Nat) : Nat :=
  action &&& VALUE_MASK

/-! ### Productions (automaton.c `grammar_productions`) -/

/-- Struct `Production` from parser.h.  The right-hand side mixes nonterminal
ids and token-type ids exactly as the C array does. -/
structure Production where
  lhs : Int
  rhs : List Int
  rhs_length : Nat
  rule_string : String
  deriving Repr, DecidableEq

/-- Entry 0 of `grammar_productions`: the dummy production that keeps the
array 1-based. -/
def dummy_production : Production :=
  { lhs := 0, rhs := [], rhs_length := 0, rule_string := "" }

/-- `grammar_productions` from automaton.c, indices 0 (dummy) through 7. -/
def grammar_productions : List Production := [
  dummy_production,
  { lhs := NON_TERMINAL_S, rhs := [NON_TERMINAL_E], rhs_length := 1,
    rule_string := "s → e" },
  { lhs := NON_TERMINAL_E, rhs := [NON_TERMINAL_E, TOKEN_PLUS, NON_TERMINAL_T], rhs_length := 3,
    rule_string := "e → e + t" },
  { lhs := NON_TERMINAL_E, rhs := [NON_TERMINAL_T], rhs_length := 1,
    rule_string := "e → t" },
  { lhs := NON_TERMINAL_T, rhs := [NON_TERMINAL_T, TOKEN_STAR, NON_TERMINAL_F], rhs_length := 3,
    rule_string := "t → t * f" },
  { lhs := NON_TERMINAL_T, rhs := [NON_TERMINAL_F], rhs_length := 1,
    rule_string := "t → f" },
  { lhs := NON_TERMINAL_F, rhs := [TOKEN_LPAREN, NON_TERMINAL_E, TOKEN_RPAREN], rhs_length := 3,
    rule_string := "f → (e)" },
  { lhs := NON_TERMINAL_F, rhs := [TOKEN_NUM], rhs_length := 1,
    rule_string := "f → NUM" }
]

/-! ### Table data (automaton.c `init_parsing_tables`)

`automaton_init` allocates `NUM_STATES` rows for each table, fills the action
table with the error action and the goto table with -1, and then
`init_parsing_tables` performs the assignments listed below, in this order.
The writes are kept as data so that the construction itself can be reasoned
about: note that the last four action writes target row 11 even though only
rows 0 through `NUM_STATES - 1 = 10` are allocated. -/

/-- The ordered `(state, terminal, encoded action)` assignments performed by
`init_parsing_tables` on `tables->action_table`. -/
def action_writes : List (Int × Int × Nat) := [
  (0, TOKEN_NUM, automaton_create_action ActionType.SHIFT 5),
  (0, TOKEN_LPAREN, automaton_create_action ActionType.SHIFT 4),
  (1, TOKEN_PLUS, automaton_create_action ActionType.SHIFT 6),
  (1, TOKEN_EOF, automaton_create_action ActionType.ACCEPT 0),
  (2, TOKEN_STAR, automaton_create_action ActionType.SHIFT 7),
  (2, TOKEN_PLUS, automaton_create_action ActionType.REDUCE 3),
  (2, TOKEN_RPAREN, automaton_create_action ActionType.REDUCE 3),
  (2, TOKEN_EOF, automaton_create_action ActionType.REDUCE 3),
  (3, TOKEN_PLUS, automaton_create_action ActionType.REDUCE 5),
  (3, TOKEN_STAR, automaton_create_action ActionType.REDUCE 5),
  (3, TOKEN_RPAREN, automaton_create_action ActionType.REDUCE 5),
  (3, TOKEN_EOF, automaton_create_action ActionType.REDUCE 5),
  (4, TOKEN_NUM, automaton_create_action ActionType.SHIFT 5),
  (4, TOKEN_LPAREN, automaton_create_action ActionType.SHIFT 4),
  (5, TOKEN_PLUS, automaton_create_action ActionType.REDUCE 7),
  (5, TOKEN_STAR, automaton_create_action ActionType.REDUCE 7),
  (5, TOKEN_RPAREN, automaton_create_action ActionType.REDUCE 7),
  (5, TOKEN_EOF, automaton_create_action ActionType.REDUCE 7),
  (6, TOKEN_NUM, automaton_create_action ActionType.SHIFT 5),
  (6, TOKEN_LPAREN, automaton_create_action ActionType.SHIFT 4),
  (7, TOKEN_NUM, automaton_create_action ActionType.SHIFT 5),
  (7, TOKEN_LPAREN, automaton_create_action ActionType.SHIFT 4),
  (8, TOKEN_PLUS, automaton_create_action ActionType.SHIFT 6),
  (8, TOKEN_RPAREN, automaton_create_action ActionType.SHIFT 11),
  (9, TOKEN_STAR, automaton_create_action ActionType.SHIFT 7),
  (9, TOKEN_PLUS, automaton_create_action ActionType.REDUCE 2),
  (9, TOKEN_RPAREN, automaton_create_action ActionType.REDUCE 2),
  (9, TOKEN_EOF, automaton_create_action ActionType.REDUCE 2),
  (10, TOKEN_PLUS, automaton_create_action ActionType.REDUCE 4),
  (10, TOKEN_STAR, automaton_create_action ActionType.REDUCE 4),
  (10, TOKEN_RPAREN, automaton_create_action ActionType.REDUCE 4),
  (10, TOKEN_EOF, automaton_create_action ActionType.REDUCE 4),
  (11, TOKEN_PLUS, automaton_create_action ActionType.REDUCE 6),
  (11, TOKEN_STAR, automaton_create_action ActionType.REDUCE 6),
  (11, TOKEN_RPAREN, automaton_create_action ActionType.REDUCE 6),
  (11, TOKEN_EOF, automaton_create_action ActionType.REDUCE 6)
]

/-- The ordered `(state, nonterminal, target state)` assignments performed by
`init_parsing_tables` on `tables->goto_table`. -/
def goto_writes : List (Int × Int × Int) := [
  (0, NON_TERMINAL_E, 1),
  (0, NON_TERMINAL_T, 2),
  (0, NON_TERMINAL_F, 3),
  (4, NON_TERMINAL_E, 8),
  (4, NON_TERMINAL_T, 2),
  (4, NON_TERMINAL_F, 3),
  (6, NON_TERMINAL_T, 9),
  (6, NON_TERMINAL_F, 3),
  (7, NON_TERMINAL_F, 10)
]

/-- The allocated action table: `NUM_STATES` rows initialised to the error
action, then updated by `action_writes` (the last write to a cell wins).  A
write whose row index is not an allocated row (`0 ≤ row < NUM_STATES`) is an
out-of-bounds store in the C program and therefore never lands in the table
itself; the table cells keep their error initialisation. -/
def action_table (state : Int) (token_type : Int) : Nat :=
  (((action_writes.filter fun w =>
      decide (0 ≤ w.1) && decide (w.1 < NUM_STATES) &&
      decide (w.1 = state) && decide (w.2.1 = token_type)).getLast?).map
    (fun w => w.2.2)).getD (automaton_create_action ActionType.ERROR 0)

/-- The allocated goto table: `NUM_STATES` rows initialised to -1, then updated
by `goto_writes` (all of which are in bounds). -/
def goto_table (state : Int) (non_terminal : Int) : Int :=
  (((goto_writes.filter fun w =>
      decide (0 ≤ w.1) && decide (w.1 < NUM_STATES) &&
      decide (w.1 = state) && decide (w.2.1 = non_terminal)).getLast?).map
    (fun w => w.2.2)).getD (-1)

/-- `get_action` from parser.c: bounds-checks the state (below 0 or at or above
`num_states`) and the terminal (at or above `num_terminals`) and returns the
error action for any out-of-range lookup, otherwise reads the table cell. -/
def get_action (state : Int) (token_type : Int) : Nat :=
  if state < 0 ∨ NUM_STATES ≤ state ∨ NUM_TERMINALS ≤ token_type then
    automaton_create_action ActionType.ERROR 0
  else
    action_table state token_type

/-- `get_goto_state` from parser.c: returns -1 for any out-of-range
`(state, non_terminal)` pair, otherwise reads the table cell (which is itself
-1 when no transition was declared). -/
def get_goto_state (state : Int) (non_terminal : Int) : Int :=
  if state < 0 ∨ NUM_STATES ≤ state ∨ non_terminal < 0 ∨ NUM_NON_TERMINALS ≤ non_terminal then
    -1
  else
    goto_table state non_terminal

/-! ### Stack operations and the two step primitives (stack.c / parser.c)

The parser stack is a list of `(state, symbol)` pairs whose head is the stack
top (`stack->top`). -/

/-- `perform_shift` from parser.c: pushes `(state, token)`.  `stack_push` can
only fail when the stack object itself is the null pointer, which cannot occur
for a created parser, so the push is modelled as always succeeding. -/
def perform_shift (stack : List (Int × Token)) (state : Int) (token : Token) :
    List (Int × Token) :=
  (state, token) :: stack

/-- `perform_reduce` from parser.c, acting on the stack and returning the new
stack, or `none` where the C function returns `false`: when the production
number is not in 1..`num_productions`, when the stack runs out while popping
`rhs_length` entries or is empty at the following peek (both cases are exactly
`drop rhs_length = []`), or when the goto lookup yields a negative state.
Otherwise it pushes the goto state paired with a freshly created placeholder
token `token_create(production->lhs, "non-terminal", 0, 0)`. -/
def perform_reduce (stack : List (Int × Token)) (production_num : Nat) :
    Option (List (Int × Token)) :=
  if production_num = 0 ∨ NUM_PRODUCTIONS < (production_num : Int) then
    none
  else
    let production := grammar_productions.getD production_num dummy_production
    match stack.drop production.rhs_length with
    | [] => none
    | top :: rest =>
      let goto_state := get_goto_state top.1 production.lhs
      if goto_state < 0 then
        none
      else
        some ((goto_state, token_create production.lhs "non-terminal" 0 0) :: top :: rest)

/-! ### The driver loop (parser.c `parser_parse`) -/

/-- An ASCII single-quote character, used by the syntax-error message. -/
def squote_text : String := String.singleton (Char.ofNat 39)

/-- The message `string_format("Syntax error at line %d, position %d: unexpected
token '%s'", ...)` built by the `ACTION_ERROR` branch of `parser_parse`. -/
def parse_error_message (tok : Token) : String :=
  "Syntax error at line " ++ toString tok.line_number ++
  ", position " ++ toString tok.position ++
  ": unexpected token " ++ squote_text ++ tok.lexeme ++ squote_text

/-- Struct `ParseResult` from parser.h (the unused `debug_trace` pointer is
omitted; the trace is returned alongside the result instead). -/
structure ParseResult where
  success : Bool
  error_line : Int
  error_message : Option String
  steps_taken : Nat
  deriving Repr, DecidableEq

/-- The operation name handed to `write_debug_output` on each iteration,
together with the shift target or reduce rule the action carries. -/
inductive StepOp where
  | SHIFT (target : Nat)
  | REDUCE (rule : Nat)
  | ACCEPT
  | ERROR
  deriving Repr, DecidableEq

/-- `get_next_token` from token.c, viewed through `stream->current`: the stream
advances past the current token unless it is the end-of-input token, in which
case `current` stays put. -/
def get_next_token : List Token → List Token
  | [] => []
  | tok :: rest => if tok.type = TOKEN_EOF then tok :: rest else rest

/-- The `while (!done && parser->input->current)` loop of `parser_parse`,
as a fuel-indexed recursion.  Besides the stack and the remaining stream it
threads the local step counter `step`, the static `step_number` counter of
`write_debug_output` (`counter`, incremented exactly once per iteration because
every dispatch branch calls `write_debug_output` once), the recorded trace as
`(step_number, operation)` pairs, and the tokens pushed by shift steps.  It
returns `none` when the fuel runs out before the loop finishes, and otherwise
the `ParseResult`, the trace, the shifted tokens and the final value of the
static counter. -/
def parse_loop : Nat → List (Int × Token) → List Token → Nat → Nat →
    List (Nat × StepOp) → List Token →
    Option (ParseResult × List (Nat × StepOp) × List Token × Nat)
  | 0, _, _, _, _, _, _ => none
  | fuel + 1, stack, stream, step, counter, trace, shifted =>
    match stream with
    | [] =>
      some ({ success := false, error_line := 0, error_message := none, steps_taken := step },
            trace, shifted, counter)
    | tok :: rest =>
      match stack with
      | [] =>
        some ({ success := false, error_line := 0,
                error_message := some "Stack underflow", steps_taken := step },
              trace, shifted, counter)
      | (state, sym) :: stack_rest =>
        let action_value := get_action state tok.type
        match automaton_get_action_type action_value with
        | ActionType.SHIFT =>
          parse_loop fuel
            (perform_shift ((state, sym) :: stack_rest)
              (Int.ofNat (automaton_get_action_value action_value)) tok)
            (get_next_token (tok :: rest)) (step + 1) (counter + 1)
            (trace ++ [(counter + 1, StepOp.SHIFT (automaton_get_action_value action_value))])
            (shifted ++ [tok])
        | ActionType.REDUCE =>
          match perform_reduce ((state, sym) :: stack_rest)
              (automaton_get_action_value action_value) with
          | some stack2 =>
            parse_loop fuel stack2 (tok :: rest) (step + 1) (counter + 1)
              (trace ++ [(counter + 1, StepOp.REDUCE (automaton_get_action_value action_value))])
              shifted
          | none =>
            some ({ success := false, error_line := 0,
                    error_message := some "Reduce operation failed", steps_taken := step + 1 },
                  trace ++ [(counter + 1, StepOp.REDUCE (automaton_get_action_value action_value))],
                  shifted, counter + 1)
        | ActionType.ACCEPT =>
          some ({ success := true, error_line := 0, error_message := none, steps_taken := step + 1 },
                trace ++ [(counter + 1, StepOp.ACCEPT)], shifted, counter + 1)
        | ActionType.ERROR =>
          some ({ success := false, error_line := tok.line_number,
                  error_message := some (parse_error_message tok), steps_taken := step + 1 },
                trace ++ [(counter + 1, StepOp.ERROR)], shifted, counter + 1)

/-- The end-of-input placeholder `token_create(TOKEN_EOF, "$", 0, 0)` pushed by
`init_parser_stack` under state 0. -/
def eof_placeholder : Token := token_create TOKEN_EOF "$" 0 0

/-- `parser_parse` from parser.c on an already-scanned token stream: the stack
starts as the single entry `(0, eof_placeholder)` (from `init_parser_stack`),
the local step counter starts at 0, and the trace recorder's static counter
starts at whatever value previous parses left in it. -/
def parser_parse (fuel : Nat) (input : List Token) (counter : Nat) :
    Option (ParseResult × List (Nat × StepOp) × List Token × Nat) :=
  parse_loop fuel [(0, eof_placeholder)] input 0 counter [] []

/-! ### Sample tokens for concrete runs -/

/-- A `NUM` token with lexeme "5", as the scanner would produce for input `5`. -/
def num5_token : Token := token_create TOKEN_NUM "5" 1 1

/-- The end-of-input token the scanner produces after `num5_token`. -/
def eof_after_num5 : Token := token_create TOKEN_EOF "EOF" 1 2

/-- The end-of-input token the scanner produces for an empty input file. -/
def eof_empty_input : Token := token_create TOKEN_EOF "EOF" 1 0

/-- An `INVALID` token as the scanner produces for unrecognisable input. -/
def invalid_token : Token := token_create TOKEN_INVALID "@" 3 7

/-- The counter-independent view of a completed run: the parse result, the
sequence of operations with the recorded step numbers stripped, and the
shifted tokens. -/
def run_view (x : ParseResult × List (Nat × StepOp) × List Token × Nat) :
    ParseResult × List StepOp × List Token :=
  (x.1, x.2.1.map Prod.snd, x.2.2.1)

/-! ## Theorems -/

/-- Claim C1 asserts that the tables are sized for all twelve automaton states,
every state index written during table construction being below the allocated
row count.  The code refutes this: `NUM_STATES` is 11, `init_parsing_tables`
nevertheless writes action-table row 11 (an out-of-bounds store), and the
shift action stored for `(8, RPAREN)` pushes state 11, which is also not
below the allocated row count; consequently `get_action` clamps every state-11
lookup to the error action and the declared row-11 reduce entries are
unreachable. -/
theorem C1_table_write_exceeds_allocation :
    NUM_STATES = 11 ∧
    (11, TOKEN_PLUS, automaton_create_action ActionType.REDUCE 6) ∈ action_writes ∧
    (11, TOKEN_EOF, automaton_create_action ActionType.REDUCE 6) ∈ action_writes ∧
    ¬ ((11 : Int) < NUM_STATES) ∧
    automaton_get_action_type (action_table 8 TOKEN_RPAREN) = ActionType.SHIFT ∧
    automaton_get_action_value (action_table 8 TOKEN_RPAREN) = 11 ∧
    ¬ ((Int.ofNat (automaton_get_action_value (action_table 8 TOKEN_RPAREN))) < NUM_STATES) ∧
    automaton_get_action_type (get_action 11 TOKEN_PLUS) = ActionType.ERROR := by
  decide

/-- Claim C2 as stated is false: on input `NUM("5")` then end-of-input the
driver performs Shift, Reduce 7, Reduce 5, Reduce 3 and then Accept — there is
no Reduce-by-rule-1 step, `steps_taken` is 5 rather than 6, because the action
table accepts directly in state 1 on end-of-input. -/
theorem C2_no_rule_one_reduce_and_five_steps :
    parser_parse 20 [num5_token, eof_after_num5] 0 =
      some ({ success := true, error_line := 0, error_message := none, steps_taken := 5 },
            [(1, StepOp.SHIFT 5), (2, StepOp.REDUCE 7), (3, StepOp.REDUCE 5),
             (4, StepOp.REDUCE 3), (5, StepOp.ACCEPT)],
            [num5_token], 5) ∧
    (5 : Nat) ≠ 6 ∧
    (∀ x ∈ ([(1, StepOp.SHIFT 5), (2, StepOp.REDUCE 7), (3, StepOp.REDUCE 5),
             (4, StepOp.REDUCE 3), (5, StepOp.ACCEPT)] : List (Nat × StepOp)),
      x.2 ≠ StepOp.REDUCE 1) := by
  decide

/-- Claim C2, amended: for the input consisting of the single token `NUM("5")`
followed by end-of-input, the driver reaches Accepted via exactly the step
sequence Shift, Reduce by rule 7 (F→NUM), Reduce by rule 5 (T→F), Reduce by
rule 3 (E→T), then Accept — four non-Accept steps and five steps counting the
Accept step, with `ParseResult.success` true; the table accepts directly in
state 1 on end-of-input, so no reduction by rule 1 occurs. -/
theorem C2_single_num_accepts_in_five_steps :
    parser_parse 20 [num5_token, eof_after_num5] 0 =
      some ({ success := true, error_line := 0, error_message := none, steps_taken := 5 },
            [(1, StepOp.SHIFT 5), (2, StepOp.REDUCE 7), (3, StepOp.REDUCE 5),
             (4, StepOp.REDUCE 3), (5, StepOp.ACCEPT)],
            [num5_token], 5) := by
  decide

/-- Claim C5: on empty input (the first token is already the end-of-input
token) the action table has no declared entry for end-of-input in state 0, the
first iteration dispatches the error action, and the parse fails with
`success = false` and `steps_taken = 1`. -/
theorem C5_empty_input_fails_at_step_one :
    (∀ w ∈ action_writes, ¬ (w.1 = 0 ∧ w.2.1 = TOKEN_EOF)) ∧
    parser_parse 5 [eof_empty_input] 0 =
      some ({ success := false, error_line := 1,
              error_message := some (parse_error_message eof_empty_input), steps_taken := 1 },
            [(1, StepOp.ERROR)], [], 1) := by
  decide

/-- Claim C9 as stated is false: running the parse of `NUM("5")` twice in the
same process, the `static` step counter of `write_debug_output` persists from
the first run (which leaves it at 5), so the second run's recorded trace is
numbered 6..10 instead of 1..5 — the two step-by-step traces are not
identical, even though both runs reach Accepted with `steps_taken = 5`. -/
theorem C9_trace_numbering_persists_across_runs :
    parser_parse 20 [num5_token, eof_after_num5] 0 =
      some ({ success := true, error_line := 0, error_message := none, steps_taken := 5 },
            [(1, StepOp.SHIFT 5), (2, StepOp.REDUCE 7), (3, StepOp.REDUCE 5),
             (4, StepOp.REDUCE 3), (5, StepOp.ACCEPT)], [num5_token], 5) ∧
    parser_parse 20 [num5_token, eof_after_num5] 5 =
      some ({ success := true, error_line := 0, error_message := none, steps_taken := 5 },
            [(6, StepOp.SHIFT 5), (7, StepOp.REDUCE 7), (8, StepOp.REDUCE 5),
             (9, StepOp.REDUCE 3), (10, StepOp.ACCEPT)], [num5_token], 10) ∧
    ([(1, StepOp.SHIFT 5), (2, StepOp.REDUCE 7), (3, StepOp.REDUCE 5),
      (4, StepOp.REDUCE 3), (5, StepOp.ACCEPT)] : List (Nat × StepOp)) ≠
    [(6, StepOp.SHIFT 5), (7, StepOp.REDUCE 7), (8, StepOp.REDUCE 5),
     (9, StepOp.REDUCE 3), (10, StepOp.ACCEPT)] := by
  refine ⟨by decide, by decide, by decide⟩

/-- Helper: a value below 2^16 is unchanged by the 16-bit value mask. -/
theorem and_value_mask_of_lt (v : Nat) (hv : v < 65536) : v &&& 65535 = v := by
  have h1 : (65535 : Nat) = 2 ^ 16 - 1 := by norm_num
  have h2 : v < 2 ^ 16 := by
    have : (2 : Nat) ^ 16 = 65536 := by norm_num
    omega
  rw [h1]
  exact Nat.and_pow_two_sub_one_of_lt_two_pow h2

/-- Helper: packing a tag multiple of 2^16 with a 16-bit value is plain
addition. -/
theorem packed_or_eq_add (a v : Nat) (hv : v < 65536) :
    65536 * a ||| v = 65536 * a + v := by
  have h2 : v < 2 ^ 16 := by
    have : (2 : Nat) ^ 16 = 65536 := by norm_num
    omega
  have h3 : (65536 : Nat) = 2 ^ 16 := by norm_num
  rw [h3]
  exact (Nat.mul_add_lt_is_or h2 a).symm

/-- Helper: the value mask recovers the low 16 bits of a packed action. -/
theorem packed_value_bits (a v : Nat) (hv : v < 65536) :
    (65536 * a + v) &&& 65535 = v := by
  have h1 : (65535 : Nat) = 2 ^ 16 - 1 := by norm_num
  have h3 : (65536 : Nat) = 2 ^ 16 := by norm_num
  rw [h1, Nat.and_pow_two_sub_one_eq_mod, h3, Nat.mul_add_mod]
  have h2 : v < 2 ^ 16 := by omega
  exact Nat.mod_eq_of_lt h2

/-- Helper: the tag mask recovers the tag bits of a packed action whose tag
nibble is below 16. -/
theorem packed_type_bits (a v : Nat) (ha : a < 16) (hv : v < 65536) :
    (65536 * a + v) &&& 983040 = 65536 * a := by
  have h3 : (65536 : Nat) = 2 ^ 16 := by norm_num
  have h15 : (983040 : Nat) = 2 ^ 16 * 15 := by norm_num
  have hv2 : v < 2 ^ 16 := by omega
  apply Nat.eq_of_testBit_eq
  intro j
  rw [h3, h15, Nat.testBit_and, Nat.testBit_mul_pow_two_add a hv2,
    Nat.testBit_mul_pow_two, Nat.testBit_mul_pow_two]
  by_cases hj : j < 16
  · simp [hj, Nat.not_le_of_lt hj]
  · have hj16 : 16 ≤ j := Nat.le_of_not_lt hj
    have h15b : (15 : Nat) = 2 ^ 4 - 1 := by norm_num
    rw [if_neg hj, h15b, Nat.testBit_two_pow_sub_one]
    by_cases hk : j - 16 < 4
    · simp [hj16, hk]
    · have hlt : a < 2 ^ (j - 16) := by
        have : (16 : Nat) ≤ 2 ^ (j - 16) :=
          le_trans (by norm_num : (16 : Nat) ≤ 2 ^ 4)
            (Nat.pow_le_pow_right (by norm_num) (Nat.le_of_not_lt hk))
        omega
      simp [hj16, hk, Nat.testBit_lt_two_pow hlt]

/-- Claim C10: the bit-packed action encoding round-trips — for `SHIFT` and
`REDUCE` with a value in 0..0xFFFF, decoding recovers the type and the value;
for `ACCEPT` and `ERROR` the decoded type is the encoded one and the decoded
value is 0 regardless of the value passed to the encoder. -/
theorem C10_action_encoding_roundtrip :
    (∀ value : Nat, value ≤ 0xFFFF →
      automaton_get_action_type (automaton_create_action ActionType.SHIFT value) =
        ActionType.SHIFT ∧
      automaton_get_action_value (automaton_create_action ActionType.SHIFT value) = value ∧
      automaton_get_action_type (automaton_create_action ActionType.REDUCE value) =
        ActionType.REDUCE ∧
      automaton_get_action_value (automaton_create_action ActionType.REDUCE value) = value) ∧
    (∀ value : Nat,
      automaton_get_action_type (automaton_create_action ActionType.ACCEPT value) =
        ActionType.ACCEPT ∧
      automaton_get_action_value (automaton_create_action ActionType.ACCEPT value) = 0 ∧
      automaton_get_action_type (automaton_create_action ActionType.ERROR value) =
        ActionType.ERROR ∧
      automaton_get_action_value (automaton_create_action ActionType.ERROR value) = 0) := by
  constructor
  · intro value hvle
    have hv : value < 65536 := by omega
    have hshift : automaton_create_action ActionType.SHIFT value = 65536 * 1 + value := by
      show ACTION_SHIFT_BIT ||| (value &&& VALUE_MASK) = 65536 * 1 + value
      rw [ACTION_SHIFT_BIT, VALUE_MASK, and_value_mask_of_lt value hv]
      have h1 : (65536 : Nat) = 65536 * 1 := by norm_num
      rw [show (0x10000 : Nat) = 65536 * 1 from by norm_num]
      exact packed_or_eq_add 1 value hv
    have hreduce : automaton_create_action ActionType.REDUCE value = 65536 * 2 + value := by
      show ACTION_REDUCE_BIT ||| (value &&& VALUE_MASK) = 65536 * 2 + value
      rw [ACTION_REDUCE_BIT, VALUE_MASK, and_value_mask_of_lt value hv]
      rw [show (0x20000 : Nat) = 65536 * 2 from by norm_num]
      exact packed_or_eq_add 2 value hv
    refine ⟨?_, ?_, ?_, ?_⟩
    · rw [automaton_get_action_type, hshift, ACTION_MASK,
        show (0xF0000 : Nat) = 983040 from by norm_num,
        packed_type_bits 1 value (by norm_num) hv]
      norm_num [ACTION_SHIFT_BIT]
    · rw [automaton_get_action_value, hshift, VALUE_MASK,
        show (0x0FFFF : Nat) = 65535 from by norm_num]
      exact packed_value_bits 1 value hv
    · rw [automaton_get_action_type, hreduce, ACTION_MASK,
        show (0xF0000 : Nat) = 983040 from by norm_num,
        packed_type_bits 2 value (by norm_num) hv]
      norm_num [ACTION_SHIFT_BIT, ACTION_REDUCE_BIT]
    · rw [automaton_get_action_value, hreduce, VALUE_MASK,
        show (0x0FFFF : Nat) = 65535 from by norm_num]
      exact packed_value_bits 2 value hv
  · intro value
    have hacc : automaton_create_action ActionType.ACCEPT value = ACTION_ACCEPT_BIT := rfl
    have herr : automaton_create_action ActionType.ERROR value = ACTION_ERROR_BIT := rfl
    rw [hacc, herr]
    exact ⟨by decide, by decide, by decide, by decide⟩

/-- Witness for C10 at the concrete values 11 and 6. -/
theorem C10_action_encoding_roundtrip_witness :
    (11 : Nat) ≤ 0xFFFF ∧
    automaton_get_action_type (automaton_create_action ActionType.SHIFT 11) =
      ActionType.SHIFT ∧
    automaton_get_action_value (automaton_create_action ActionType.REDUCE 6) = 6 :=
  ⟨by decide, (C10_action_encoding_roundtrip.1 11 (by decide)).1,
    ((C10_action_encoding_roundtrip.1 6 (by decide)).2.2.2)⟩

/-! ### Single-iteration lemmas about the driver loop -/

/-- One iteration dispatching the error action: the loop halts with a failed
result carrying the offending token's line number and the formatted message,
after recording the `ERROR` operation and bumping both counters once. -/
theorem parse_loop_error_step (fuel step counter : Nat) (trace : List (Nat × StepOp))
    (shifted : List Token) (tok : Token) (rest : List Token) (state : Int) (sym : Token)
    (stack_rest : List (Int × Token))
    (h : automaton_get_action_type (get_action state tok.type) = ActionType.ERROR) :
    parse_loop (fuel + 1) ((state, sym) :: stack_rest) (tok :: rest) step counter trace shifted =
      some ({ success := false, error_line := tok.line_number,
              error_message := some (parse_error_message tok), steps_taken := step + 1 },
            trace ++ [(counter + 1, StepOp.ERROR)], shifted, counter + 1) := by
  simp [parse_loop, h]

/-- One iteration dispatching the accept action: the loop halts with a
successful result after recording the `ACCEPT` operation. -/
theorem parse_loop_accept_step (fuel step counter : Nat) (trace : List (Nat × StepOp))
    (shifted : List Token) (tok : Token) (rest : List Token) (state : Int) (sym : Token)
    (stack_rest : List (Int × Token))
    (h : automaton_get_action_type (get_action state tok.type) = ActionType.ACCEPT) :
    parse_loop (fuel + 1) ((state, sym) :: stack_rest) (tok :: rest) step counter trace shifted =
      some ({ success := true, error_line := 0, error_message := none, steps_taken := step + 1 },
            trace ++ [(counter + 1, StepOp.ACCEPT)], shifted, counter + 1) := by
  simp [parse_loop, h]

/-- One iteration dispatching a shift action: the token is pushed together
with the decoded target state, the stream advances, and the loop continues. -/
theorem parse_loop_shift_step (fuel step counter : Nat) (trace : List (Nat × StepOp))
    (shifted : List Token) (tok : Token) (rest : List Token) (state : Int) (sym : Token)
    (stack_rest : List (Int × Token))
    (h : automaton_get_action_type (get_action state tok.type) = ActionType.SHIFT) :
    parse_loop (fuel + 1) ((state, sym) :: stack_rest) (tok :: rest) step counter trace shifted =
      parse_loop fuel
        (perform_shift ((state, sym) :: stack_rest)
          (Int.ofNat (automaton_get_action_value (get_action state tok.type))) tok)
        (get_next_token (tok :: rest)) (step + 1) (counter + 1)
        (trace ++ [(counter + 1,
          StepOp.SHIFT (automaton_get_action_value (get_action state tok.type)))])
        (shifted ++ [tok]) := by
  simp [parse_loop, h]

/-- One iteration dispatching a reduce action whose `perform_reduce`
succeeds: the loop continues on the new stack with the stream unchanged — the
lookahead token is the same before and after the reduce step. -/
theorem parse_loop_reduce_some_step (fuel step counter : Nat) (trace : List (Nat × StepOp))
    (shifted : List Token) (tok : Token) (rest : List Token) (state : Int) (sym : Token)
    (stack_rest : List (Int × Token)) (stack2 : List (Int × Token))
    (h : automaton_get_action_type (get_action state tok.type) = ActionType.REDUCE)
    (hr : perform_reduce ((state, sym) :: stack_rest)
      (automaton_get_action_value (get_action state tok.type)) = some stack2) :
    parse_loop (fuel + 1) ((state, sym) :: stack_rest) (tok :: rest) step counter trace shifted =
      parse_loop fuel stack2 (tok :: rest) (step + 1) (counter + 1)
        (trace ++ [(counter + 1,
          StepOp.REDUCE (automaton_get_action_value (get_action state tok.type)))])
        shifted := by
  simp [parse_loop, h, hr]

/-- One iteration dispatching a reduce action whose `perform_reduce` fails:
the loop halts with a failed result whose message is the fixed string
`"Reduce operation failed"` and whose `error_line` stays 0 — no token position
is recorded. -/
theorem parse_loop_reduce_none_step (fuel step counter : Nat) (trace : List (Nat × StepOp))
    (shifted : List Token) (tok : Token) (rest : List Token) (state : Int) (sym : Token)
    (stack_rest : List (Int × Token))
    (h : automaton_get_action_type (get_action state tok.type) = ActionType.REDUCE)
    (hr : perform_reduce ((state, sym) :: stack_rest)
      (automaton_get_action_value (get_action state tok.type)) = none) :
    parse_loop (fuel + 1) ((state, sym) :: stack_rest) (tok :: rest) step counter trace shifted =
      some ({ success := false, error_line := 0,
              error_message := some "Reduce operation failed", steps_taken := step + 1 },
            trace ++ [(counter + 1,
              StepOp.REDUCE (automaton_get_action_value (get_action state tok.type)))],
            shifted, counter + 1) := by
  simp [parse_loop, h, hr]

/-! ### Characterisation of `perform_reduce` -/

/-- The production-number guard of `perform_reduce` is passed for every rule
number in 1..7. -/
theorem perform_reduce_guard (p : Nat) (h1 : 1 ≤ p) (h7 : (p : Int) ≤ NUM_PRODUCTIONS) :
    ¬ (p = 0 ∨ NUM_PRODUCTIONS < (p : Int)) := by
  simp only [NUM_PRODUCTIONS] at h7 ⊢
  omega

/-- `perform_reduce` fails when the stack holds at most the production's
right-hand-side length of entries: popping `rhs_length` entries either
underflows or leaves nothing to peek. -/
theorem perform_reduce_drop_nil (stack : List (Int × Token)) (p : Nat)
    (h1 : 1 ≤ p) (h7 : (p : Int) ≤ NUM_PRODUCTIONS)
    (hd : stack.drop (grammar_productions.getD p dummy_production).rhs_length = []) :
    perform_reduce stack p = none := by
  rw [perform_reduce, if_neg (perform_reduce_guard p h1 h7)]
  simp only [hd]

/-- `perform_reduce` fails when, after popping the right-hand side, the goto
lookup for the production's left-hand nonterminal yields a negative state. -/
theorem perform_reduce_goto_neg (stack : List (Int × Token)) (p : Nat)
    (top : Int × Token) (rest : List (Int × Token))
    (h1 : 1 ≤ p) (h7 : (p : Int) ≤ NUM_PRODUCTIONS)
    (hd : stack.drop (grammar_productions.getD p dummy_production).rhs_length = top :: rest)
    (hg : get_goto_state top.1 (grammar_productions.getD p dummy_production).lhs < 0) :
    perform_reduce stack p = none := by
  rw [perform_reduce, if_neg (perform_reduce_guard p h1 h7)]
  simp only [hd]
  rw [if_pos hg]

/-- `perform_reduce` succeeds when the goto lookup is non-negative: it pops
exactly `rhs_length` entries and pushes the goto state paired with a fresh
placeholder token for the left-hand nonterminal. -/
theorem perform_reduce_goto_nonneg (stack : List (Int × Token)) (p : Nat)
    (top : Int × Token) (rest : List (Int × Token))
    (h1 : 1 ≤ p) (h7 : (p : Int) ≤ NUM_PRODUCTIONS)
    (hd : stack.drop (grammar_productions.getD p dummy_production).rhs_length = top :: rest)
    (hg : 0 ≤ get_goto_state top.1 (grammar_productions.getD p dummy_production).lhs) :
    perform_reduce stack p =
      some ((get_goto_state top.1 (grammar_productions.getD p dummy_production).lhs,
             token_create (grammar_productions.getD p dummy_production).lhs
               "non-terminal" 0 0) :: top :: rest) := by
  rw [perform_reduce, if_neg (perform_reduce_guard p h1 h7)]
  simp only [hd]
  rw [if_neg (by omega)]

/-- Claim C4: a `Reduce(p)` step pops exactly the production's right-hand-side
length of entries (failing when the stack empties first), reads the new top
state, consults the goto table for the production's left-hand nonterminal,
fails when the goto entry is undefined, pushes one new entry pairing the goto
state with a freshly created nonterminal placeholder token, and does not
advance the token stream — the lookahead is unchanged by the reduce step. -/
theorem C4_reduce_pops_rhs_and_pushes_goto :
    (∀ (stack : List (Int × Token)) (p : Nat), 1 ≤ p → (p : Int) ≤ NUM_PRODUCTIONS →
      (stack.drop (grammar_productions.getD p dummy_production).rhs_length = [] →
        perform_reduce stack p = none) ∧
      (∀ (top : Int × Token) (rest : List (Int × Token)),
        stack.drop (grammar_productions.getD p dummy_production).rhs_length = top :: rest →
        (get_goto_state top.1 (grammar_productions.getD p dummy_production).lhs < 0 →
          perform_reduce stack p = none) ∧
        (0 ≤ get_goto_state top.1 (grammar_productions.getD p dummy_production).lhs →
          perform_reduce stack p =
            some ((get_goto_state top.1 (grammar_productions.getD p dummy_production).lhs,
                   token_create (grammar_productions.getD p dummy_production).lhs
                     "non-terminal" 0 0) :: top :: rest)))) ∧
    (∀ (fuel step counter : Nat) (trace : List (Nat × StepOp)) (shifted : List Token)
      (tok : Token) (rest : List Token) (state : Int) (sym : Token)
      (stack_rest : List (Int × Token)) (stack2 : List (Int × Token)),
      automaton_get_action_type (get_action state tok.type) = ActionType.REDUCE →
      perform_reduce ((state, sym) :: stack_rest)
        (automaton_get_action_value (get_action state tok.type)) = some stack2 →
      parse_loop (fuel + 1) ((state, sym) :: stack_rest) (tok :: rest) step counter trace shifted =
        parse_loop fuel stack2 (tok :: rest) (step + 1) (counter + 1)
          (trace ++ [(counter + 1,
            StepOp.REDUCE (automaton_get_action_value (get_action state tok.type)))])
          shifted) := by
  constructor
  · intro stack p h1 h7
    refine ⟨perform_reduce_drop_nil stack p h1 h7, ?_⟩
    intro top rest hd
    exact ⟨perform_reduce_goto_neg stack p top rest h1 h7 hd,
      perform_reduce_goto_nonneg stack p top rest h1 h7 hd⟩
  · intro fuel step counter trace shifted tok rest state sym stack_rest stack2 h hr
    exact parse_loop_reduce_some_step fuel step counter trace shifted tok rest state sym
      stack_rest stack2 h hr

/-- Witness for C4: reducing by rule 7 (`F → NUM`) on the stack
`[(5, NUM), (0, $)]` pops one entry, consults `goto(0, F) = 3` and pushes the
placeholder under state 3; and the driver iteration on lookahead `EOF` in
state 5 performs exactly that reduce without consuming the lookahead. -/
theorem C4_reduce_pops_rhs_and_pushes_goto_witness :
    (1 ≤ 7 ∧ ((7 : Nat) : Int) ≤ NUM_PRODUCTIONS ∧
      ([(5, num5_token), (0, eof_placeholder)] :
        List (Int × Token)).drop
          (grammar_productions.getD 7 dummy_production).rhs_length =
        (0, eof_placeholder) :: [] ∧
      0 ≤ get_goto_state 0 (grammar_productions.getD 7 dummy_production).lhs) ∧
    perform_reduce [(5, num5_token), (0, eof_placeholder)] 7 =
      some [(get_goto_state 0 (grammar_productions.getD 7 dummy_production).lhs,
             token_create (grammar_productions.getD 7 dummy_production).lhs
               "non-terminal" 0 0), (0, eof_placeholder)] ∧
    parse_loop 2 [(5, num5_token), (0, eof_placeholder)] [eof_after_num5] 1 1
        [(1, StepOp.SHIFT 5)] [num5_token] =
      parse_loop 1
        [(get_goto_state 0 (grammar_productions.getD 7 dummy_production).lhs,
          token_create (grammar_productions.getD 7 dummy_production).lhs
            "non-terminal" 0 0), (0, eof_placeholder)]
        [eof_after_num5] 2 2
        [(1, StepOp.SHIFT 5), (2, StepOp.REDUCE
          (automaton_get_action_value (get_action 5 eof_after_num5.type)))]
        [num5_token] :=
  ⟨⟨by decide, by decide, by decide, by decide⟩,
    by
      have h := ((C4_reduce_pops_rhs_and_pushes_goto.1
        [(5, num5_token), (0, eof_placeholder)] 7 (by decide) (by decide)).2
        (0, eof_placeholder) [] (by decide)).2 (by decide)
      simpa using h,
    C4_reduce_pops_rhs_and_pushes_goto.2 1 1 1 [(1, StepOp.SHIFT 5)] [num5_token]
      eof_after_num5 [] 5 num5_token [(0, eof_placeholder)] _ (by decide) (by decide)⟩

/-- Claim C3, first three parts: `get_action` returns the error action for
every state on the `INVALID` token kind, for every out-of-bounds state, and
for every in-bounds `(state, terminal)` pair with no declared table entry;
fourth part: when the dispatched action decodes to `ERROR` the driver halts
with `success = false`, records the offending token's line number in
`error_line` and its line, position and lexeme in the formatted message, and
performs no further step. -/
theorem C3_undeclared_lookups_error_and_halt :
    (∀ s : Int, automaton_get_action_type (get_action s TOKEN_INVALID) = ActionType.ERROR) ∧
    (∀ s t : Int, s < 0 ∨ NUM_STATES ≤ s →
      automaton_get_action_type (get_action s t) = ActionType.ERROR) ∧
    (∀ s t : Int, 0 ≤ s → s < NUM_STATES → 0 ≤ t → t < NUM_TERMINALS →
      (∀ w ∈ action_writes, ¬ (w.1 = s ∧ w.2.1 = t)) →
      get_action s t = automaton_create_action ActionType.ERROR 0) ∧
    (∀ (fuel step counter : Nat) (trace : List (Nat × StepOp)) (shifted : List Token)
      (tok : Token) (rest : List Token) (state : Int) (sym : Token)
      (stack_rest : List (Int × Token)),
      automaton_get_action_type (get_action state tok.type) = ActionType.ERROR →
      parse_loop (fuel + 1) ((state, sym) :: stack_rest) (tok :: rest) step counter trace shifted =
        some ({ success := false, error_line := tok.line_number,
                error_message := some (parse_error_message tok), steps_taken := step + 1 },
              trace ++ [(counter + 1, StepOp.ERROR)], shifted, counter + 1)) := by
  refine ⟨?_, ?_, ?_, ?_⟩
  · intro s
    rw [get_action, if_pos (Or.inr (Or.inr (by decide)))]
    decide
  · intro s t h
    rcases h with h | h
    · rw [get_action, if_pos (Or.inl h)]
      decide
    · rw [get_action, if_pos (Or.inr (Or.inl h))]
      decide
  · intro s t hs0 hs1 ht0 ht1 hno
    simp only [NUM_STATES] at hs1
    simp only [NUM_TERMINALS] at ht1
    have key : ∀ a : Nat, a < 11 → ∀ b : Nat, b < 6 →
        (∀ w ∈ action_writes, ¬ (w.1 = (a : Int) ∧ w.2.1 = (b : Int))) →
        get_action (a : Int) (b : Int) =
          automaton_create_action ActionType.ERROR 0 := by decide
    obtain ⟨a, rfl⟩ : ∃ a : Nat, s = (a : Int) := ⟨s.toNat, by omega⟩
    obtain ⟨b, rfl⟩ : ∃ b : Nat, t = (b : Int) := ⟨t.toNat, by omega⟩
    exact key a (by omega) b (by omega) hno
  · intro fuel step counter trace shifted tok rest state sym stack_rest h
    exact parse_loop_error_step fuel step counter trace shifted tok rest state sym stack_rest h

/-- Witness for C3: in state 0 the `INVALID` token decodes to the error
action, and the driver halts at once on it, recording line 3, position 7 and
the lexeme "@" of the offending token. -/
theorem C3_undeclared_lookups_error_and_halt_witness :
    automaton_get_action_type (get_action 0 invalid_token.type) = ActionType.ERROR ∧
    parse_loop 1 [(0, eof_placeholder)] [invalid_token] 0 0 [] [] =
      some ({ success := false, error_line := invalid_token.line_number,
              error_message := some (parse_error_message invalid_token), steps_taken := 1 },
            [(1, StepOp.ERROR)], [], 1) :=
  ⟨by decide,
    by
      have h := C3_undeclared_lookups_error_and_halt.2.2.2 0 0 0 [] [] invalid_token []
        0 eof_placeholder [] (by decide)
      simpa using h⟩

/-! ### The step counter counts iterations -/

/-- Invariant of the driver loop: a completed run's `steps_taken` exceeds the
initial step counter by exactly the number of trace records added, because
each iteration increments the counter once and records one operation. -/
theorem parse_loop_steps_eq :
    ∀ (fuel : Nat) (stack : List (Int × Token)) (stream : List Token)
      (step counter : Nat) (trace : List (Nat × StepOp)) (shifted : List Token)
      (r : ParseResult) (tr : List (Nat × StepOp)) (sh : List Token) (c2 : Nat),
      parse_loop fuel stack stream step counter trace shifted = some (r, tr, sh, c2) →
      r.steps_taken + trace.length = step + tr.length := by
  intro fuel
  induction fuel with
  | zero =>
    intro stack stream step counter trace shifted r tr sh c2 h
    simp [parse_loop] at h
  | succ fuel ih =>
    intro stack stream step counter trace shifted r tr sh c2 h
    cases stream with
    | nil =>
      simp only [parse_loop, Option.some.injEq, Prod.mk.injEq] at h
      obtain ⟨hr, htr, hsh, hc⟩ := h
      subst hr
      subst htr
      rfl
    | cons tok rest =>
      cases stack with
      | nil =>
        simp only [parse_loop, Option.some.injEq, Prod.mk.injEq] at h
        obtain ⟨hr, htr, hsh, hc⟩ := h
        subst hr
        subst htr
        rfl
      | cons top stack_rest =>
        obtain ⟨state, sym⟩ := top
        cases hA : automaton_get_action_type (get_action state tok.type) with
        | SHIFT =>
          rw [parse_loop_shift_step fuel step counter trace shifted tok rest state sym
            stack_rest hA] at h
          have hrec := ih _ _ _ _ _ _ r tr sh c2 h
          simp only [List.length_append, List.length_cons, List.length_nil] at hrec
          omega
        | REDUCE =>
          cases hR : perform_reduce ((state, sym) :: stack_rest)
              (automaton_get_action_value (get_action state tok.type)) with
          | none =>
            rw [parse_loop_reduce_none_step fuel step counter trace shifted tok rest state sym
              stack_rest hA hR] at h
            simp only [Option.some.injEq, Prod.mk.injEq] at h
            obtain ⟨hr, htr, hsh, hc⟩ := h
            subst hr
            subst htr
            simp only [List.length_append, List.length_cons, List.length_nil]
            omega
          | some stack2 =>
            rw [parse_loop_reduce_some_step fuel step counter trace shifted tok rest state sym
              stack_rest stack2 hA hR] at h
            have hrec := ih _ _ _ _ _ _ r tr sh c2 h
            simp only [List.length_append, List.length_cons, List.length_nil] at hrec
            omega
        | ACCEPT =>
          rw [parse_loop_accept_step fuel step counter trace shifted tok rest state sym
            stack_rest hA] at h
          simp only [Option.some.injEq, Prod.mk.injEq] at h
          obtain ⟨hr, htr, hsh, hc⟩ := h
          subst hr
          subst htr
          simp only [List.length_append, List.length_cons, List.length_nil]
          omega
        | ERROR =>
          rw [parse_loop_error_step fuel step counter trace shifted tok rest state sym
            stack_rest hA] at h
          simp only [Option.some.injEq, Prod.mk.injEq] at h
          obtain ⟨hr, htr, hsh, hc⟩ := h
          subst hr
          subst htr
          simp only [List.length_append, List.length_cons, List.length_nil]
          omega

/-- Claim C6: the step counter increments exactly once per driver loop
iteration, including the final Accept or Error iteration, so every completed
parse has `steps_taken` equal to the number of recorded iterations (shifts
plus reduces plus the one terminal Accept or Error step). -/
theorem C6_steps_taken_counts_iterations :
    ∀ (fuel : Nat) (input : List Token) (counter : Nat) (r : ParseResult)
      (tr : List (Nat × StepOp)) (sh : List Token) (c2 : Nat),
      parser_parse fuel input counter = some (r, tr, sh, c2) →
      r.steps_taken = tr.length := by
  intro fuel input counter r tr sh c2 h
  have hrec := parse_loop_steps_eq fuel [(0, eof_placeholder)] input 0 counter [] [] r tr sh c2 h
  simpa using hrec

/-- Witness for C6 on the run for input `NUM("5")` then end-of-input: the
result records 5 steps and the trace holds 5 records. -/
theorem C6_steps_taken_counts_iterations_witness :
    parser_parse 20 [num5_token, eof_after_num5] 0 =
      some ({ success := true, error_line := 0, error_message := none, steps_taken := 5 },
            [(1, StepOp.SHIFT 5), (2, StepOp.REDUCE 7), (3, StepOp.REDUCE 5),
             (4, StepOp.REDUCE 3), (5, StepOp.ACCEPT)], [num5_token], 5) ∧
    ({ success := true, error_line := 0, error_message := none,
       steps_taken := 5 } : ParseResult).steps_taken =
      ([(1, StepOp.SHIFT 5), (2, StepOp.REDUCE 7), (3, StepOp.REDUCE 5),
        (4, StepOp.REDUCE 3), (5, StepOp.ACCEPT)] : List (Nat × StepOp)).length :=
  ⟨by decide,
    C6_steps_taken_counts_iterations 20 [num5_token, eof_after_num5] 0
      { success := true, error_line := 0, error_message := none, steps_taken := 5 }
      [(1, StepOp.SHIFT 5), (2, StepOp.REDUCE 7), (3, StepOp.REDUCE 5),
       (4, StepOp.REDUCE 3), (5, StepOp.ACCEPT)] [num5_token] 5 (by decide)⟩

/-! ### Shifted tokens reproduce the input -/

/-- No shift action is declared in the end-of-input column of the table: a
dispatched shift always consumes a non-end-of-input token. -/
theorem shift_action_not_eof (s t : Int) (ht : 0 ≤ t)
    (h : automaton_get_action_type (get_action s t) = ActionType.SHIFT) :
    t ≠ TOKEN_EOF := by
  by_cases hb : s < 0 ∨ NUM_STATES ≤ s ∨ NUM_TERMINALS ≤ t
  · rw [get_action, if_pos hb] at h
    exact absurd h (by decide)
  · rw [get_action, if_neg hb] at h
    push_neg at hb
    obtain ⟨hs0, hs1, ht1⟩ := hb
    simp only [NUM_STATES] at hs1
    simp only [NUM_TERMINALS] at ht1
    have key : ∀ a : Nat, a < 11 → ∀ b : Nat, b < 6 →
        automaton_get_action_type (action_table (a : Int) (b : Int)) = ActionType.SHIFT →
        (b : Int) ≠ TOKEN_EOF := by decide
    obtain ⟨a, rfl⟩ : ∃ a : Nat, s = (a : Int) := ⟨s.toNat, by omega⟩
    obtain ⟨b, rfl⟩ : ∃ b : Nat, t = (b : Int) := ⟨t.toNat, by omega⟩
    exact key a (by omega) b (by omega) h

/-- The only accept action declared in the table sits in the end-of-input
column: a dispatched accept always sees the end-of-input lookahead. -/
theorem accept_action_eof (s t : Int) (ht : 0 ≤ t)
    (h : automaton_get_action_type (get_action s t) = ActionType.ACCEPT) :
    t = TOKEN_EOF := by
  by_cases hb : s < 0 ∨ NUM_STATES ≤ s ∨ NUM_TERMINALS ≤ t
  · rw [get_action, if_pos hb] at h
    exact absurd h (by decide)
  · rw [get_action, if_neg hb] at h
    push_neg at hb
    obtain ⟨hs0, hs1, ht1⟩ := hb
    simp only [NUM_STATES] at hs1
    simp only [NUM_TERMINALS] at ht1
    have key : ∀ a : Nat, a < 11 → ∀ b : Nat, b < 6 →
        automaton_get_action_type (action_table (a : Int) (b : Int)) = ActionType.ACCEPT →
        (b : Int) = TOKEN_EOF := by decide
    obtain ⟨a, rfl⟩ : ∃ a : Nat, s = (a : Int) := ⟨s.toNat, by omega⟩
    obtain ⟨b, rfl⟩ : ∃ b : Nat, t = (b : Int) := ⟨t.toNat, by omega⟩
    exact key a (by omega) b (by omega) h

/-- Invariant of the driver loop: a successful run's shifted-token list is the
accumulator extended by exactly the stream's tokens up to (excluding) the
first end-of-input token, in stream order. -/
theorem parse_loop_shift_order :
    ∀ (fuel : Nat) (stack : List (Int × Token)) (stream : List Token)
      (step counter : Nat) (trace : List (Nat × StepOp)) (shifted : List Token)
      (r : ParseResult) (tr : List (Nat × StepOp)) (sh : List Token) (c2 : Nat),
      (∀ tok ∈ stream, 0 ≤ tok.type) →
      parse_loop fuel stack stream step counter trace shifted = some (r, tr, sh, c2) →
      r.success = true →
      sh = shifted ++ stream.takeWhile (fun tok => decide (tok.type ≠ TOKEN_EOF)) := by
  intro fuel
  induction fuel with
  | zero =>
    intro stack stream step counter trace shifted r tr sh c2 hwf h hs
    simp [parse_loop] at h
  | succ fuel ih =>
    intro stack stream step counter trace shifted r tr sh c2 hwf h hs
    cases stream with
    | nil =>
      simp only [parse_loop, Option.some.injEq, Prod.mk.injEq] at h
      obtain ⟨hr, htr, hsh, hc⟩ := h
      subst hr
      simp at hs
    | cons tok rest =>
      cases stack with
      | nil =>
        simp only [parse_loop, Option.some.injEq, Prod.mk.injEq] at h
        obtain ⟨hr, htr, hsh, hc⟩ := h
        subst hr
        simp at hs
      | cons top stack_rest =>
        obtain ⟨state, sym⟩ := top
        cases hA : automaton_get_action_type (get_action state tok.type) with
        | SHIFT =>
          have hne : tok.type ≠ TOKEN_EOF := shift_action_not_eof state tok.type
            (hwf tok (List.mem_cons_self tok rest)) hA
          have hgnt : get_next_token (tok :: rest) = rest := by
            simp [get_next_token, hne]
          rw [parse_loop_shift_step fuel step counter trace shifted tok rest state sym
            stack_rest hA, hgnt] at h
          have hrest : ∀ t2 ∈ rest, 0 ≤ t2.type :=
            fun t2 ht2 => hwf t2 (List.mem_cons_of_mem tok ht2)
          have hrec := ih _ rest _ _ _ (shifted ++ [tok]) r tr sh c2 hrest h hs
          rw [hrec, List.takeWhile_cons_of_pos (by simp [hne])]
          simp
        | REDUCE =>
          cases hR : perform_reduce ((state, sym) :: stack_rest)
              (automaton_get_action_value (get_action state tok.type)) with
          | none =>
            rw [parse_loop_reduce_none_step fuel step counter trace shifted tok rest state sym
              stack_rest hA hR] at h
            simp only [Option.some.injEq, Prod.mk.injEq] at h
            obtain ⟨hr, htr, hsh, hc⟩ := h
            subst hr
            simp at hs
          | some stack2 =>
            rw [parse_loop_reduce_some_step fuel step counter trace shifted tok rest state sym
              stack_rest stack2 hA hR] at h
            exact ih stack2 (tok :: rest) _ _ _ shifted r tr sh c2 hwf h hs
        | ACCEPT =>
          have htok := accept_action_eof state tok.type
            (hwf tok (List.mem_cons_self tok rest)) hA
          rw [parse_loop_accept_step fuel step counter trace shifted tok rest state sym
            stack_rest hA] at h
          simp only [Option.some.injEq, Prod.mk.injEq] at h
          obtain ⟨hr, htr, hsh, hc⟩ := h
          rw [List.takeWhile_cons_of_neg (by simp [htok]), ← hsh]
          simp
        | ERROR =>
          rw [parse_loop_error_step fuel step counter trace shifted tok rest state sym
            stack_rest hA] at h
          simp only [Option.some.injEq, Prod.mk.injEq] at h
          obtain ⟨hr, htr, hsh, hc⟩ := h
          subst hr
          simp at hs

/-- Claim C7: in every successful parse the tokens pushed by shift steps, in
shift order, are exactly the stream's terminal tokens before end-of-input —
none dropped, duplicated or reordered — and hence the concatenation of shifted
lexemes equals the concatenation of input lexemes. -/
theorem C7_shifted_tokens_are_the_input :
    ∀ (fuel : Nat) (input : List Token) (counter : Nat) (r : ParseResult)
      (tr : List (Nat × StepOp)) (sh : List Token) (c2 : Nat),
      (∀ tok ∈ input, 0 ≤ tok.type) →
      parser_parse fuel input counter = some (r, tr, sh, c2) →
      r.success = true →
      sh = input.takeWhile (fun tok => decide (tok.type ≠ TOKEN_EOF)) ∧
      String.join (sh.map Token.lexeme) =
        String.join
          ((input.takeWhile (fun tok => decide (tok.type ≠ TOKEN_EOF))).map Token.lexeme) := by
  intro fuel input counter r tr sh c2 hwf h hs
  have hmain := parse_loop_shift_order fuel [(0, eof_placeholder)] input 0 counter [] []
    r tr sh c2 hwf h hs
  simp only [List.nil_append] at hmain
  exact ⟨hmain, by rw [hmain]⟩

/-- Witness for C7 on the successful run for `NUM("5")` then end-of-input:
the single shifted token is exactly the input's terminal prefix. -/
theorem C7_shifted_tokens_are_the_input_witness :
    parser_parse 20 [num5_token, eof_after_num5] 0 =
      some ({ success := true, error_line := 0, error_message := none, steps_taken := 5 },
            [(1, StepOp.SHIFT 5), (2, StepOp.REDUCE 7), (3, StepOp.REDUCE 5),
             (4, StepOp.REDUCE 3), (5, StepOp.ACCEPT)], [num5_token], 5) ∧
    [num5_token] =
      [num5_token, eof_after_num5].takeWhile (fun tok => decide (tok.type ≠ TOKEN_EOF)) :=
  ⟨by decide,
    (C7_shifted_tokens_are_the_input 20 [num5_token, eof_after_num5] 0
      { success := true, error_line := 0, error_message := none, steps_taken := 5 }
      [(1, StepOp.SHIFT 5), (2, StepOp.REDUCE 7), (3, StepOp.REDUCE 5),
       (4, StepOp.REDUCE 3), (5, StepOp.ACCEPT)] [num5_token] 5
      (by decide) (by decide) rfl).1⟩

/-! ### The goto sentinel and fatal reduce failures -/

/-- Claim C8: `get_goto_state` returns the sentinel -1 exactly when the
`(state, nonterminal)` pair is out of the declared bounds or has no declared
transition; every non-sentinel return value is a valid state; a reduce step
that meets the sentinel makes `perform_reduce` fail; and the driver then
aborts the parse with `success = false` and the fixed message
`"Reduce operation failed"`, leaving `error_line` at 0 — not an ordinary
syntax error with token position information. -/
theorem C8_goto_sentinel_aborts_reduce :
    (∀ s nt : Int, get_goto_state s nt = -1 ↔
      (s < 0 ∨ NUM_STATES ≤ s ∨ nt < 0 ∨ NUM_NON_TERMINALS ≤ nt ∨
        ∀ w ∈ goto_writes, ¬ (w.1 = s ∧ w.2.1 = nt))) ∧
    (∀ s nt : Int, get_goto_state s nt = -1 ∨
      (0 ≤ get_goto_state s nt ∧ get_goto_state s nt < NUM_STATES)) ∧
    (∀ (stack : List (Int × Token)) (p : Nat) (top : Int × Token)
      (rest : List (Int × Token)), 1 ≤ p → (p : Int) ≤ NUM_PRODUCTIONS →
      stack.drop (grammar_productions.getD p dummy_production).rhs_length = top :: rest →
      get_goto_state top.1 (grammar_productions.getD p dummy_production).lhs = -1 →
      perform_reduce stack p = none) ∧
    (∀ (fuel step counter : Nat) (trace : List (Nat × StepOp)) (shifted : List Token)
      (tok : Token) (rest : List Token) (state : Int) (sym : Token)
      (stack_rest : List (Int × Token)),
      automaton_get_action_type (get_action state tok.type) = ActionType.REDUCE →
      perform_reduce ((state, sym) :: stack_rest)
        (automaton_get_action_value (get_action state tok.type)) = none →
      parse_loop (fuel + 1) ((state, sym) :: stack_rest) (tok :: rest) step counter trace shifted =
        some ({ success := false, error_line := 0,
                error_message := some "Reduce operation failed", steps_taken := step + 1 },
              trace ++ [(counter + 1,
                StepOp.REDUCE (automaton_get_action_value (get_action state tok.type)))],
              shifted, counter + 1)) := by
  refine ⟨?_, ?_, ?_, ?_⟩
  · intro s nt
    by_cases hb : s < 0 ∨ NUM_STATES ≤ s ∨ nt < 0 ∨ NUM_NON_TERMINALS ≤ nt
    · rw [get_goto_state, if_pos hb]
      refine ⟨fun _ => ?_, fun _ => rfl⟩
      rcases hb with h | h | h | h
      · exact Or.inl h
      · exact Or.inr (Or.inl h)
      · exact Or.inr (Or.inr (Or.inl h))
      · exact Or.inr (Or.inr (Or.inr (Or.inl h)))
    · rw [get_goto_state, if_neg hb]
      push_neg at hb
      obtain ⟨h1, h2, h3, h4⟩ := hb
      simp only [NUM_STATES] at h2
      simp only [NUM_NON_TERMINALS] at h4
      have key : ∀ a : Nat, a < 11 → ∀ b : Nat, b < 4 →
          (goto_table (a : Int) (b : Int) = -1 ↔
            ∀ w ∈ goto_writes, ¬ (w.1 = (a : Int) ∧ w.2.1 = (b : Int))) := by decide
      obtain ⟨a, rfl⟩ : ∃ a : Nat, s = (a : Int) := ⟨s.toNat, by omega⟩
      obtain ⟨b, rfl⟩ : ∃ b : Nat, nt = (b : Int) := ⟨nt.toNat, by omega⟩
      constructor
      · intro hgt
        exact Or.inr (Or.inr (Or.inr (Or.inr ((key a (by omega) b (by omega)).mp hgt))))
      · intro hd
        rcases hd with h | h | h | h | h
        · omega
        · simp only [NUM_STATES] at h
          omega
        · omega
        · simp only [NUM_NON_TERMINALS] at h
          omega
        · exact (key a (by omega) b (by omega)).mpr h
  · intro s nt
    by_cases hb : s < 0 ∨ NUM_STATES ≤ s ∨ nt < 0 ∨ NUM_NON_TERMINALS ≤ nt
    · rw [get_goto_state, if_pos hb]
      exact Or.inl rfl
    · rw [get_goto_state, if_neg hb]
      push_neg at hb
      obtain ⟨h1, h2, h3, h4⟩ := hb
      simp only [NUM_STATES] at h2
      simp only [NUM_NON_TERMINALS] at h4
      have key : ∀ a : Nat, a < 11 → ∀ b : Nat, b < 4 →
          (goto_table (a : Int) (b : Int) = -1 ∨
            (0 ≤ goto_table (a : Int) (b : Int) ∧
              goto_table (a : Int) (b : Int) < NUM_STATES)) := by decide
      obtain ⟨a, rfl⟩ : ∃ a : Nat, s = (a : Int) := ⟨s.toNat, by omega⟩
      obtain ⟨b, rfl⟩ : ∃ b : Nat, nt = (b : Int) := ⟨nt.toNat, by omega⟩
      exact key a (by omega) b (by omega)
  · intro stack p top rest h1 h7 hd hg
    exact perform_reduce_goto_neg stack p top rest h1 h7 hd (by rw [hg]; decide)
  · intro fuel step counter trace shifted tok rest state sym stack_rest h hr
    exact parse_loop_reduce_none_step fuel step counter trace shifted tok rest state sym
      stack_rest h hr

/-- Witness for C8: state 5 has no goto transition for `T`, so reducing by
rule 5 (`T → F`) on the stack `[(3, NUM), (5, $)]` fails, and the driver
iteration with lookahead `PLUS` in state 3 aborts with the fixed internal
message and no token position. -/
theorem C8_goto_sentinel_aborts_reduce_witness :
    get_goto_state 5 NON_TERMINAL_T = -1 ∧
    perform_reduce [(3, num5_token), (5, eof_placeholder)] 5 = none ∧
    parse_loop 1 [(3, num5_token), (5, eof_placeholder)]
        [token_create TOKEN_PLUS "+" 1 1] 0 0 [] [] =
      some ({ success := false, error_line := 0,
              error_message := some "Reduce operation failed", steps_taken := 1 },
            [(1, StepOp.REDUCE 5)], [], 1) :=
  ⟨by decide,
    C8_goto_sentinel_aborts_reduce.2.2.1 [(3, num5_token), (5, eof_placeholder)] 5
      (5, eof_placeholder) [] (by decide) (by decide) (by decide) (by decide),
    by
      have h := C8_goto_sentinel_aborts_reduce.2.2.2 0 0 0 [] []
        (token_create TOKEN_PLUS "+" 1 1) [] 3 num5_token [(5, eof_placeholder)]
        (by decide) (by decide)
      simpa using h⟩

/-! ### Determinism of repeated runs modulo the persisted trace counter -/

/-- The driver's decisions never depend on the trace recorder's static
counter: two runs from the same stack and stream, differing only in the
counter and in the already-recorded trace numbering, produce the same result,
operation sequence and shifted tokens. -/
theorem parse_loop_counter_view :
    ∀ (fuel : Nat) (stack : List (Int × Token)) (stream : List Token) (step : Nat)
      (c1 c2 : Nat) (trace1 trace2 : List (Nat × StepOp)) (shifted : List Token),
      trace1.map Prod.snd = trace2.map Prod.snd →
      (parse_loop fuel stack stream step c1 trace1 shifted).map run_view =
      (parse_loop fuel stack stream step c2 trace2 shifted).map run_view := by
  intro fuel
  induction fuel with
  | zero =>
    intro stack stream step c1 c2 trace1 trace2 shifted htr
    simp [parse_loop]
  | succ fuel ih =>
    intro stack stream step c1 c2 trace1 trace2 shifted htr
    cases stream with
    | nil => simp [parse_loop, run_view, htr]
    | cons tok rest =>
      cases stack with
      | nil => simp [parse_loop, run_view, htr]
      | cons top stack_rest =>
        obtain ⟨state, sym⟩ := top
        cases hA : automaton_get_action_type (get_action state tok.type) with
        | SHIFT =>
          rw [parse_loop_shift_step fuel step c1 trace1 shifted tok rest state sym
              stack_rest hA,
            parse_loop_shift_step fuel step c2 trace2 shifted tok rest state sym
              stack_rest hA]
          exact ih _ _ _ _ _ _ _ _ (by simp [htr])
        | REDUCE =>
          cases hR : perform_reduce ((state, sym) :: stack_rest)
              (automaton_get_action_value (get_action state tok.type)) with
          | none =>
            rw [parse_loop_reduce_none_step fuel step c1 trace1 shifted tok rest state sym
                stack_rest hA hR,
              parse_loop_reduce_none_step fuel step c2 trace2 shifted tok rest state sym
                stack_rest hA hR]
            simp [run_view, htr]
          | some stack2 =>
            rw [parse_loop_reduce_some_step fuel step c1 trace1 shifted tok rest state sym
                stack_rest stack2 hA hR,
              parse_loop_reduce_some_step fuel step c2 trace2 shifted tok rest state sym
                stack_rest stack2 hA hR]
            exact ih _ _ _ _ _ _ _ _ (by simp [htr])
        | ACCEPT =>
          rw [parse_loop_accept_step fuel step c1 trace1 shifted tok rest state sym
              stack_rest hA,
            parse_loop_accept_step fuel step c2 trace2 shifted tok rest state sym
              stack_rest hA]
          simp [run_view, htr]
        | ERROR =>
          rw [parse_loop_error_step fuel step c1 trace1 shifted tok rest state sym
              stack_rest hA,
            parse_loop_error_step fuel step c2 trace2 shifted tok rest state sym
              stack_rest hA]
          simp [run_view, htr]

/-- Claim C9, amended: two runs of the parse on the same token sequence —
regardless of the value the persisted trace counter starts at — produce the
same `ParseResult` (same success and `steps_taken`), the same operation
sequence, and the same shifted tokens; only the step numbering recorded in
the trace can differ, because the `static` counter in `write_debug_output`
persists across runs. -/
theorem C9_runs_agree_modulo_trace_numbering :
    ∀ (fuel : Nat) (input : List Token) (c1 c2 : Nat)
      (r1 r2 : ParseResult) (tr1 tr2 : List (Nat × StepOp)) (sh1 sh2 : List Token)
      (d1 d2 : Nat),
      parser_parse fuel input c1 = some (r1, tr1, sh1, d1) →
      parser_parse fuel input c2 = some (r2, tr2, sh2, d2) →
      r1 = r2 ∧ tr1.map Prod.snd = tr2.map Prod.snd ∧ sh1 = sh2 := by
  intro fuel input c1 c2 r1 r2 tr1 tr2 sh1 sh2 d1 d2 h1 h2
  have hv := parse_loop_counter_view fuel [(0, eof_placeholder)] input 0 c1 c2 [] [] [] rfl
  simp only [parser_parse] at h1 h2
  rw [h1, h2] at hv
  simp only [Option.map_some', run_view, Option.some.injEq, Prod.mk.injEq] at hv
  exact ⟨hv.1, hv.2.1, hv.2.2⟩

/-- Witness for C9's amended determinism statement on the two runs of
`NUM("5")` with persisted counters 0 and 5. -/
theorem C9_runs_agree_modulo_trace_numbering_witness :
    parser_parse 20 [num5_token, eof_after_num5] 0 =
      some ({ success := true, error_line := 0, error_message := none, steps_taken := 5 },
            [(1, StepOp.SHIFT 5), (2, StepOp.REDUCE 7), (3, StepOp.REDUCE 5),
             (4, StepOp.REDUCE 3), (5, StepOp.ACCEPT)], [num5_token], 5) ∧
    parser_parse 20 [num5_token, eof_after_num5] 5 =
      some ({ success := true, error_line := 0, error_message := none, steps_taken := 5 },
            [(6, StepOp.SHIFT 5), (7, StepOp.REDUCE 7), (8, StepOp.REDUCE 5),
             (9, StepOp.REDUCE 3), (10, StepOp.ACCEPT)], [num5_token], 10) ∧
    (({ success := true, error_line := 0, error_message := none,
        steps_taken := 5 } : ParseResult) =
      { success := true, error_line := 0, error_message := none, steps_taken := 5 } ∧
     ([(1, StepOp.SHIFT 5), (2, StepOp.REDUCE 7), (3, StepOp.REDUCE 5),
       (4, StepOp.REDUCE 3), (5, StepOp.ACCEPT)] : List (Nat × StepOp)).map Prod.snd =
       ([(6, StepOp.SHIFT 5), (7, StepOp.REDUCE 7), (8, StepOp.REDUCE 5),
         (9, StepOp.REDUCE 3), (10, StepOp.ACCEPT)] : List (Nat × StepOp)).map Prod.snd ∧
     ([num5_token] : List Token) = [num5_token]) :=
  ⟨by decide, by decide,
    C9_runs_agree_modulo_trace_numbering 20 [num5_token, eof_after_num5] 0 5
      { success := true, error_line := 0, error_message := none, steps_taken := 5 }
      { success := true, error_line := 0, error_message := none, steps_taken := 5 }
      [(1, StepOp.SHIFT 5), (2, StepOp.REDUCE 7), (3, StepOp.REDUCE 5),
       (4, StepOp.REDUCE 3), (5, StepOp.ACCEPT)]
      [(6, StepOp.SHIFT 5), (7, StepOp.REDUCE 7), (8, StepOp.REDUCE 5),
       (9, StepOp.REDUCE 3), (10, StepOp.ACCEPT)]
      [num5_token] [num5_token] 5 10 (by decide) (by decide)⟩

end P3
